import Mathlib

/-!
# Verification of the art-gallery favorites store and gallery fetch controller

Shallow embedding of `src/art-gallery/src/context/FavoritesContext.tsx`,
`src/art-gallery/src/pages/Gallery.tsx` (three concatenated variants) and the
`Artwork` data model of `src/art-gallery/src/types.ts`, together with proofs
about the embedded operations.
-/

namespace ArtGallery

/-- Artwork record, from `src/art-gallery/src/types.ts` (second interface:
only `id` is required, the descriptive fields and `image_id` are optional).
Fields not used by the favorites store or the gallery fetch logic are kept
as representative optional string fields. -/
structure Artwork where
  id : Nat
  title : Option String
  image_id : Option String
  artist_display : Option String
  date_display : Option String
  medium_display : Option String
  dimensions : Option String
deriving DecidableEq, Repr

/-- Pagination metadata of an API response (`types.ts`, `ApiResponse.pagination`). -/
structure Pagination where
  total : Nat
  limit : Nat
  offset : Nat
  total_pages : Nat
  current_page : Nat
deriving DecidableEq, Repr

/-- A search-endpoint response: a record array plus pagination metadata
(`types.ts`, `ApiResponse<Artwork>`). -/
structure ApiResponse where
  data : List Artwork
  pagination : Pagination
deriving DecidableEq, Repr

/-! ## Favorites store (`FavoritesContext.tsx`)

The provider state is the `favorites` array; the three operations below are
the bodies of `addToFavorites`, `removeFromFavorites` and `isFavorite`.
-/

/-- `addToFavorites` (FavoritesContext.tsx line 111-113):
`setFavorites(prev => [...prev, artwork])` — unconditional append,
no duplicate check. -/
def addToFavorites (artwork : Artwork) (prev : List Artwork) : List Artwork :=
  prev ++ [artwork]

/-- `removeFromFavorites` (FavoritesContext.tsx line 120-122):
`setFavorites(prev => prev.filter(artwork => artwork.id !== artworkId))`. -/
def removeFromFavorites (artworkId : Nat) (prev : List Artwork) : List Artwork :=
  prev.filter (fun artwork => artwork.id != artworkId)

/-- `isFavorite` (FavoritesContext.tsx line 130-132):
`favorites.some(artwork => artwork.id === artworkId)`. -/
def isFavorite (artworkId : Nat) (favorites : List Artwork) : Bool :=
  favorites.any (fun artwork => artwork.id == artworkId)

/-- A mutation of the favorites collection: one call to `addToFavorites`
or `removeFromFavorites`. -/
inductive FavOp where
  | add (artwork : Artwork)
  | remove (artworkId : Nat)
deriving DecidableEq, Repr

/-- Apply one mutation to the in-memory collection. -/
def applyFavOp (op : FavOp) (favorites : List Artwork) : List Artwork :=
  match op with
  | .add artwork => addToFavorites artwork favorites
  | .remove artworkId => removeFromFavorites artworkId favorites

/-- Run a sequence of mutations (earliest first). -/
def runFavOps (ops : List FavOp) (favorites : List Artwork) : List Artwork :=
  ops.foldl (fun favs op => applyFavOp op favs) favorites

/-- The favorites collection has no two entries with the same identifier. -/
def uniqueIds (favorites : List Artwork) : Prop :=
  (favorites.map Artwork.id).Nodup

instance (favorites : List Artwork) : Decidable (uniqueIds favorites) := by
  unfold uniqueIds; infer_instance

/-- The favorite-toggle performed by every in-repo caller
(`ArtworkCard.handleFavoriteClick`, `ArtworkDetail.handleFavoriteClick`):
remove when `isFavorite(artwork.id)` holds, add otherwise, so an add is
only ever issued for an identifier not currently in the collection. -/
def toggleFavorite (artwork : Artwork) (favorites : List Artwork) : List Artwork :=
  if isFavorite artwork.id favorites then
    removeFromFavorites artwork.id favorites
  else
    addToFavorites artwork favorites

/-- A caller-level favorites event: a toggle click or a plain removal. -/
inductive CallerOp where
  | toggle (artwork : Artwork)
  | remove (artworkId : Nat)
deriving DecidableEq, Repr

/-- Apply one caller-level event. -/
def applyCallerOp (op : CallerOp) (favorites : List Artwork) : List Artwork :=
  match op with
  | .toggle artwork => toggleFavorite artwork favorites
  | .remove artworkId => removeFromFavorites artworkId favorites

/-- Run a sequence of caller-level events (earliest first). -/
def runCallerOps (ops : List CallerOp) (favorites : List Artwork) : List Artwork :=
  ops.foldl (fun favs op => applyCallerOp op favs) favorites

/-- A throwaway concrete artwork used in concrete evaluations. -/
def sampleArtwork : Artwork :=
  { id := 42, title := some "Sunrise", image_id := some "img-42"
    artist_display := none, date_display := none
    medium_display := none, dimensions := none }

/-! ## Gallery fetch controller (`Gallery.tsx`)

`Gallery.tsx` holds three concatenated implementations of the gallery page.
Each is embedded as a state record plus step functions.  A network `fetch`
either succeeds with an `ApiResponse` or fails; the synchronous prelude of
each `fetchArtworks` (before the `await`) and its resolution (success body /
`catch` / `finally`) are composed into one step per outcome.
-/

/-- The resolution of one network request. -/
inductive FetchOutcome where
  | success (resp : ApiResponse)
  | failure (msg : String)
deriving DecidableEq, Repr

/-- JavaScript truthiness of `artwork.image_id`, as tested by
`filter(artwork => artwork.image_id)` in variants 2 and 3: present and
not the empty string. -/
def hasImage (artwork : Artwork) : Bool :=
  match artwork.image_id with
  | none => false
  | some s => !s.isEmpty

/-! ### Variant 1 (Gallery.tsx lines 67-338) -/

/-- Component state of variant 1: `artworks`, `loading`, `error`,
`searchTerm`, `page`, `hasMore`. -/
structure GalleryState1 where
  artworks : List Artwork
  loading : Bool
  error : String
  searchTerm : String
  page : Nat
  hasMore : Bool
deriving DecidableEq, Repr

/-- A request issued by variant 1's `fetchArtworks(query, pageNum, append)`. -/
structure FetchRequest1 where
  query : String
  pageNum : Nat
  append : Bool
deriving DecidableEq, Repr

/-- Synchronous prelude of variant 1's `fetchArtworks`:
`setLoading(true); setError('')` (lines 132-133), before the `await`. -/
def fetchStart1 (s : GalleryState1) : GalleryState1 :=
  { s with loading := true, error := "" }

/-- Resolution of variant 1's `fetchArtworks` (success body lines 151-161,
`catch` lines 163-167, `finally` lines 168-170).  On success the list is
replaced or appended with `data.data` unfiltered and
`hasMore := current_page < total_pages`; on failure only the error message
is recorded. -/
def fetchResolve1 (append : Bool) (outcome : FetchOutcome) (s : GalleryState1) :
    GalleryState1 :=
  match outcome with
  | .success resp =>
      { s with
        artworks := if append then s.artworks ++ resp.data else resp.data
        hasMore := decide (resp.pagination.current_page < resp.pagination.total_pages)
        loading := false }
  | .failure msg =>
      { s with error := msg, loading := false }

/-- Variant 1's `fetchArtworks(query, pageNum, append)` run to completion
with outcome `outcome` (the request's `query`/`pageNum` only affect the
network call, not how the state is merged). -/
def fetchArtworks1 (append : Bool) (outcome : FetchOutcome) (s : GalleryState1) :
    GalleryState1 :=
  fetchResolve1 append outcome (fetchStart1 s)

/-- The request issued by variant 1's `handleLoadMore` (lines 216-222):
only when `hasMore && !loading`, the page is advanced and
`fetchArtworks(searchTerm, nextPage, true)` is called. -/
def loadMoreRequest1 (s : GalleryState1) : Option FetchRequest1 :=
  if s.hasMore && !s.loading then
    some { query := s.searchTerm, pageNum := s.page + 1, append := true }
  else
    none

/-- Variant 1's `handleLoadMore` click up to the point where the issued
request is in flight: the page cursor is already advanced and the fetch
prelude has run, but no response has arrived.  Returns the intermediate
state and the pending request (or the unchanged state when the guard
rejects the click). -/
def clickLoadMore1 (s : GalleryState1) : GalleryState1 × Option FetchRequest1 :=
  match loadMoreRequest1 s with
  | none => (s, none)
  | some r => (fetchStart1 { s with page := r.pageNum }, some r)

/-! ### Variant 2 (Gallery.tsx lines 369-561, axios-based) -/

/-- Component state of variant 2: no error state exists (`catch` only logs). -/
structure GalleryState2 where
  artworks : List Artwork
  loading : Bool
  searchTerm : String
  page : Nat
  hasMore : Bool
deriving DecidableEq, Repr

/-- A request issued by variant 2/3's `fetchArtworks(pageNum, search)`. -/
structure FetchRequest2 where
  pageNum : Nat
  search : String
deriving DecidableEq, Repr

/-- Variant 2's `fetchArtworks(pageNum, search)` run to completion (lines
394-428).  On success, records lacking a truthy `image_id` are dropped
(line 410), then the list is replaced when `pageNum === 1` and appended
otherwise (lines 412-418), and `hasMore := current_page < total_pages`
(line 421).  On failure the `catch` only logs: no state but `loading`
changes. -/
def fetchArtworks2 (pageNum : Nat) (outcome : FetchOutcome) (s : GalleryState2) :
    GalleryState2 :=
  match outcome with
  | .success resp =>
      let newArtworks := resp.data.filter hasImage
      { s with
        artworks := if pageNum = 1 then newArtworks else s.artworks ++ newArtworks
        hasMore := decide (resp.pagination.current_page < resp.pagination.total_pages)
        loading := false }
  | .failure _ =>
      { s with loading := false }

/-- Variant 2's `loadMore` handler body (lines 455-459): unconditionally
advances the page and issues `fetchArtworks(nextPage, searchTerm)`;
the function itself performs no guard. -/
def loadMore2 (s : GalleryState2) : GalleryState2 × FetchRequest2 :=
  ({ s with page := s.page + 1, loading := true },
   { pageNum := s.page + 1, search := s.searchTerm })

/-- A user click on variant 2's Load More button.  The button exists in the
DOM only when `artworks.length > 0 && hasMore` (lines 528, 538) and carries
`disabled={loading}` (line 543); a disabled or absent button delivers no
click, so `loadMore` runs exactly when the gate holds. -/
def clickLoadMore2 (s : GalleryState2) : Option (GalleryState2 × FetchRequest2) :=
  if !s.artworks.isEmpty && s.hasMore && !s.loading then
    some (loadMore2 s)
  else
    none

/-! ### Variant 3 (Gallery.tsx lines 628-797, fetch-based) -/

/-- Component state of variant 3 (same fields as variant 2; no error state). -/
structure GalleryState3 where
  artworks : List Artwork
  loading : Bool
  searchTerm : String
  page : Nat
  hasMore : Bool
deriving DecidableEq, Repr

/-- Variant 3's `fetchArtworks(pageNum, search)` run to completion (lines
635-681).  Success is as in variant 2 (filter on truthy `image_id`, replace
when `pageNum === 1`, append otherwise, `hasMore` comparison); the `catch`
(lines 673-677) logs and additionally clears the list to empty when
`pageNum === 1`. -/
def fetchArtworks3 (pageNum : Nat) (outcome : FetchOutcome) (s : GalleryState3) :
    GalleryState3 :=
  match outcome with
  | .success resp =>
      let newArtworks := resp.data.filter hasImage
      { s with
        artworks := if pageNum = 1 then newArtworks else s.artworks ++ newArtworks
        hasMore := decide (resp.pagination.current_page < resp.pagination.total_pages)
        loading := false }
  | .failure _ =>
      { s with
        artworks := if pageNum = 1 then [] else s.artworks
        loading := false }

/-- Variant 3's `loadMore` handler body (lines 706-710): unconditionally
advances the page and issues `fetchArtworks(nextPage, searchTerm)`. -/
def loadMore3 (s : GalleryState3) : GalleryState3 × FetchRequest2 :=
  ({ s with page := s.page + 1, loading := true },
   { pageNum := s.page + 1, search := s.searchTerm })

/-- A user click on variant 3's Load More button: rendered only when
`artworks.length > 0 && hasMore` (lines 751, 760) with `disabled={loading}`
(line 764), as in variant 2. -/
def clickLoadMore3 (s : GalleryState3) : Option (GalleryState3 × FetchRequest2) :=
  if !s.artworks.isEmpty && s.hasMore && !s.loading then
    some (loadMore3 s)
  else
    none

/-! ## Theorems about the favorites store -/

lemma isFavorite_iff_mem_ids (artworkId : Nat) (l : List Artwork) :
    isFavorite artworkId l = true ↔ artworkId ∈ l.map Artwork.id := by
  simp [isFavorite, List.any_eq_true, List.mem_map]

lemma uniqueIds_remove (artworkId : Nat) (l : List Artwork)
    (h : uniqueIds l) : uniqueIds (removeFromFavorites artworkId l) := by
  unfold uniqueIds removeFromFavorites
  exact ((l.filter_sublist).map Artwork.id).nodup h

lemma uniqueIds_toggle (artwork : Artwork) (l : List Artwork)
    (h : uniqueIds l) : uniqueIds (toggleFavorite artwork l) := by
  unfold toggleFavorite
  by_cases hf : isFavorite artwork.id l = true
  · simpa [hf] using uniqueIds_remove artwork.id l h
  · have hne : artwork.id ∉ l.map Artwork.id := fun hm =>
      hf ((isFavorite_iff_mem_ids artwork.id l).mpr hm)
    simp only [hf, if_neg, Bool.false_eq_true, not_false_iff, if_false]
    unfold uniqueIds addToFavorites
    rw [List.map_append]
    simpa [List.nodup_append] using ⟨h, fun x hx hxe =>
      hne (by rw [← hxe]; exact List.mem_map_of_mem Artwork.id hx)⟩

lemma uniqueIds_runCallerOps (ops : List CallerOp) (l : List Artwork)
    (h : uniqueIds l) : uniqueIds (runCallerOps ops l) := by
  induction ops generalizing l with
  | nil => simpa [runCallerOps] using h
  | cons op ops ih =>
      have hstep : uniqueIds (applyCallerOp op l) := by
        cases op with
        | toggle artwork => exact uniqueIds_toggle artwork l h
        | remove artworkId => exact uniqueIds_remove artworkId l h
      simpa [runCallerOps, List.foldl_cons] using ih (applyCallerOp op l) hstep

/-- Claim C1, counterexample: `addToFavorites` performs no duplicate check
(`setFavorites(prev => [...prev, artwork])`), so the two-operation sequence
`addToFavorites(sampleArtwork); addToFavorites(sampleArtwork)` starting from
the empty collection produces two entries with identifier 42. -/
theorem favorites_duplicate_ids_cex :
    ¬ uniqueIds (runFavOps [FavOp.add sampleArtwork, FavOp.add sampleArtwork] []) := by
  decide

/-- Claim C1 (amended): the store itself does not enforce uniqueness, but
every in-repo caller adds only through the favorite-toggle, which removes
when `isFavorite(artwork.id)` holds and adds only otherwise.  For every
sequence of such caller-level operations (toggle clicks and removals)
starting from a collection with no duplicate identifiers — in particular the
empty or freshly loaded collection — the favorites collection never contains
two entries with the same identifier. -/
theorem favorites_unique_ids_of_guarded_callers (ops : List CallerOp)
    (l : List Artwork) (h : uniqueIds l) : uniqueIds (runCallerOps ops l) :=
  uniqueIds_runCallerOps ops l h

/-- Concrete instance of `favorites_unique_ids_of_guarded_callers`: two
toggle clicks on the same artwork from the empty collection leave the
identifiers duplicate-free. -/
theorem favorites_unique_ids_of_guarded_callers_witness :
    uniqueIds (runCallerOps [CallerOp.toggle sampleArtwork,
      CallerOp.toggle sampleArtwork] []) :=
  favorites_unique_ids_of_guarded_callers _ [] (by decide)

/-- Claim C7: `removeFromFavorites(id)` removes every entry whose identifier
equals `id` (the result contains no entry with that identifier), it is a
total function raising no error for any input, and when no entry matches the
collection is returned unchanged. -/
theorem removeFromFavorites_spec (l : List Artwork) (artworkId : Nat) :
    (∀ a ∈ removeFromFavorites artworkId l, a.id ≠ artworkId) ∧
    (isFavorite artworkId l = false → removeFromFavorites artworkId l = l) := by
  constructor
  · intro a ha
    have := List.of_mem_filter ha
    simpa using this
  · intro hfalse
    apply List.filter_eq_self.mpr
    intro a ha
    have : a.id ≠ artworkId := by
      intro heq
      have : isFavorite artworkId l = true :=
        (isFavorite_iff_mem_ids artworkId l).mpr (heq ▸ List.mem_map_of_mem Artwork.id ha)
      simp [hfalse] at this
    simpa using this

/-- Concrete instance of `removeFromFavorites_spec`: removing the absent
identifier 7 from `[sampleArtwork]` leaves the collection unchanged. -/
theorem removeFromFavorites_spec_witness :
    removeFromFavorites 7 [sampleArtwork] = [sampleArtwork] :=
  (removeFromFavorites_spec [sampleArtwork] 7).2 (by decide)

/-- Claim C8: immediately after `addToFavorites(artwork)` with
`artwork.id = id`, `isFavorite(id)` returns true, and immediately after
`removeFromFavorites(id)`, `isFavorite(id)` returns false. -/
theorem isFavorite_after_add_remove (l : List Artwork) (artwork : Artwork)
    (artworkId : Nat) :
    (artwork.id = artworkId →
      isFavorite artworkId (addToFavorites artwork l) = true) ∧
    isFavorite artworkId (removeFromFavorites artworkId l) = false := by
  constructor
  · intro heq
    simp [isFavorite, addToFavorites, List.any_append, heq]
  · simp only [isFavorite, removeFromFavorites, List.any_eq_false]
    intro a ha
    have := List.of_mem_filter ha
    simpa using this

/-- Concrete instance of `isFavorite_after_add_remove` at `sampleArtwork`
and identifier 42. -/
theorem isFavorite_after_add_remove_witness :
    isFavorite 42 (addToFavorites sampleArtwork []) = true ∧
    isFavorite 42 (removeFromFavorites 42 [sampleArtwork]) = false :=
  ⟨(isFavorite_after_add_remove [] sampleArtwork 42).1 rfl,
   (isFavorite_after_add_remove [sampleArtwork] sampleArtwork 42).2⟩

/-! ## Gallery controller: supporting definitions -/

/-- Initial component state of variant 1 (Gallery.tsx lines 74-104):
`useState([])`, `useState(false)`, `useState('')`, `useState('')`,
`useState(1)`, `useState(true)`. -/
def initialState1 : GalleryState1 :=
  { artworks := [], loading := false, error := "", searchTerm := ""
    page := 1, hasMore := true }

/-- Initial component state of variant 2 (lines 371-383): `loading` starts
true, `page` at 1, `hasMore` true. -/
def initialState2 : GalleryState2 :=
  { artworks := [], loading := true, searchTerm := "", page := 1, hasMore := true }

/-- Initial component state of variant 3 (lines 629-633). -/
def initialState3 : GalleryState3 :=
  { artworks := [], loading := true, searchTerm := "", page := 1, hasMore := true }

/-- Build a concrete API response with the given records and reported
pagination numbers. -/
def mkResponse (records : List Artwork) (currentPage totalPages : Nat) : ApiResponse :=
  { data := records
    pagination :=
      { total := 0, limit := 12, offset := 0
        total_pages := totalPages, current_page := currentPage } }

/-- A concrete artwork whose `image_id` is absent (JS `undefined`). -/
def noImageArtwork : Artwork :=
  { id := 7, title := some "Untitled", image_id := none
    artist_display := none, date_display := none
    medium_display := none, dimensions := none }

/-- Run a sequence of completed fetches (each a `pageNum` with its outcome)
through variant 2's `fetchArtworks`. -/
def runFetches2 (evs : List (Nat × FetchOutcome)) (s : GalleryState2) : GalleryState2 :=
  evs.foldl (fun s ev => fetchArtworks2 ev.1 ev.2 s) s

/-- Run a sequence of completed fetches through variant 3's `fetchArtworks`. -/
def runFetches3 (evs : List (Nat × FetchOutcome)) (s : GalleryState3) : GalleryState3 :=
  evs.foldl (fun s ev => fetchArtworks3 ev.1 ev.2 s) s

/-! ## Theorems about the gallery fetch controller -/

/-- Claim C3: after every successful fetch, in all three gallery variants,
the "more pages remain" flag equals the comparison of the response's
reported current page against its reported total page count; concretely,
`current_page = 2, total_pages = 5` yields true and
`current_page = 5, total_pages = 5` yields false. -/
theorem hasMore_iff_more_pages :
    (∀ (append : Bool) (resp : ApiResponse) (s : GalleryState1),
      (fetchArtworks1 append (.success resp) s).hasMore =
        decide (resp.pagination.current_page < resp.pagination.total_pages)) ∧
    (∀ (pageNum : Nat) (resp : ApiResponse) (s : GalleryState2),
      (fetchArtworks2 pageNum (.success resp) s).hasMore =
        decide (resp.pagination.current_page < resp.pagination.total_pages)) ∧
    (∀ (pageNum : Nat) (resp : ApiResponse) (s : GalleryState3),
      (fetchArtworks3 pageNum (.success resp) s).hasMore =
        decide (resp.pagination.current_page < resp.pagination.total_pages)) ∧
    (fetchArtworks1 false (.success (mkResponse [] 2 5)) initialState1).hasMore = true ∧
    (fetchArtworks1 false (.success (mkResponse [] 5 5)) initialState1).hasMore = false :=
  ⟨fun _ _ _ => rfl, fun _ _ _ => rfl, fun _ _ _ => rfl, by decide, by decide⟩

/-- Claim C5, counterexample: in variant 2 a non-appending (page-1)
successful fetch does not replace the result list with the response's
records when a record lacks an image reference — the filter of line 410
drops it first, so the result list is empty while the response holds one
record. -/
theorem fetch_success_merge_cex :
    (fetchArtworks2 1 (.success (mkResponse [noImageArtwork] 1 1)) initialState2).artworks
      ≠ (mkResponse [noImageArtwork] 1 1).data := by
  decide

/-- Claim C5 (amended): on every successful fetch, variant 1 replaces the
result list with exactly the response's records when not appending and
appends exactly the response's records when appending; variants 2 and 3
merge the response's records that carry a truthy image reference instead,
replacing when the requested page is 1 and appending otherwise.  The quoted
scenario holds in variant 1: a page-1 fetch of 12 records yields 12 entries
(with the "more" flag true for `current_page 1, total_pages 3`), and a
subsequent appending fetch of 12 more yields 24. -/
theorem fetch_success_merge_amended :
    (∀ (append : Bool) (resp : ApiResponse) (s : GalleryState1),
      (fetchArtworks1 append (.success resp) s).artworks =
        if append then s.artworks ++ resp.data else resp.data) ∧
    (∀ (pageNum : Nat) (resp : ApiResponse) (s : GalleryState2),
      (fetchArtworks2 pageNum (.success resp) s).artworks =
        if pageNum = 1 then resp.data.filter hasImage
        else s.artworks ++ resp.data.filter hasImage) ∧
    (∀ (pageNum : Nat) (resp : ApiResponse) (s : GalleryState3),
      (fetchArtworks3 pageNum (.success resp) s).artworks =
        if pageNum = 1 then resp.data.filter hasImage
        else s.artworks ++ resp.data.filter hasImage) ∧
    (fetchArtworks1 false
      (.success (mkResponse (List.replicate 12 sampleArtwork) 1 3))
      initialState1).artworks.length = 12 ∧
    (fetchArtworks1 false
      (.success (mkResponse (List.replicate 12 sampleArtwork) 1 3))
      initialState1).hasMore = true ∧
    (fetchArtworks1 true
      (.success (mkResponse (List.replicate 12 sampleArtwork) 2 3))
      (fetchArtworks1 false
        (.success (mkResponse (List.replicate 12 sampleArtwork) 1 3))
        initialState1)).artworks.length = 24 :=
  ⟨fun _ _ _ => rfl, fun _ _ _ => rfl, fun _ _ _ => rfl, by decide, by decide, by decide⟩

lemma allImages_fetch2 (pageNum : Nat) (outcome : FetchOutcome) (s : GalleryState2)
    (h : ∀ a ∈ s.artworks, hasImage a = true) :
    ∀ a ∈ (fetchArtworks2 pageNum outcome s).artworks, hasImage a = true := by
  cases outcome with
  | success resp =>
      intro a ha
      simp only [fetchArtworks2] at ha
      by_cases h1 : pageNum = 1
      · simp only [h1, if_pos rfl] at ha
        exact List.of_mem_filter ha
      · simp only [if_neg h1, List.mem_append] at ha
        rcases ha with ha | ha
        · exact h a ha
        · exact List.of_mem_filter ha
  | failure msg =>
      intro a ha
      exact h a ha

lemma allImages_fetch3 (pageNum : Nat) (outcome : FetchOutcome) (s : GalleryState3)
    (h : ∀ a ∈ s.artworks, hasImage a = true) :
    ∀ a ∈ (fetchArtworks3 pageNum outcome s).artworks, hasImage a = true := by
  cases outcome with
  | success resp =>
      intro a ha
      simp only [fetchArtworks3] at ha
      by_cases h1 : pageNum = 1
      · simp only [h1, if_pos rfl] at ha
        exact List.of_mem_filter ha
      · simp only [if_neg h1, List.mem_append] at ha
        rcases ha with ha | ha
        · exact h a ha
        · exact List.of_mem_filter ha
  | failure msg =>
      intro a ha
      simp only [fetchArtworks3] at ha
      by_cases h1 : pageNum = 1
      · simp [h1] at ha
      · simp only [if_neg h1] at ha
        exact h a ha

lemma allImages_runFetches2 (evs : List (Nat × FetchOutcome)) (s : GalleryState2)
    (h : ∀ a ∈ s.artworks, hasImage a = true) :
    ∀ a ∈ (runFetches2 evs s).artworks, hasImage a = true := by
  induction evs generalizing s with
  | nil => simpa [runFetches2] using h
  | cons ev evs ih =>
      simpa [runFetches2, List.foldl_cons] using
        ih (fetchArtworks2 ev.1 ev.2 s) (allImages_fetch2 ev.1 ev.2 s h)

lemma allImages_runFetches3 (evs : List (Nat × FetchOutcome)) (s : GalleryState3)
    (h : ∀ a ∈ s.artworks, hasImage a = true) :
    ∀ a ∈ (runFetches3 evs s).artworks, hasImage a = true := by
  induction evs generalizing s with
  | nil => simpa [runFetches3] using h
  | cons ev evs ih =>
      simpa [runFetches3, List.foldl_cons] using
        ih (fetchArtworks3 ev.1 ev.2 s) (allImages_fetch3 ev.1 ev.2 s h)

/-- Claim C6: in the filtering variants (2 and 3) of the gallery fetch
controller, records whose `image_id` is not truthy are dropped from the
response before being merged — the merged records are exactly the
response's records with an image — and hence along every sequence of
completed fetches from the initial state, every entry of the result list
carries an image reference. -/
theorem imageless_records_filtered :
    (∀ (pageNum : Nat) (resp : ApiResponse) (s : GalleryState2),
      (fetchArtworks2 pageNum (.success resp) s).artworks =
        (if pageNum = 1 then [] else s.artworks) ++ resp.data.filter hasImage) ∧
    (∀ (pageNum : Nat) (resp : ApiResponse) (s : GalleryState3),
      (fetchArtworks3 pageNum (.success resp) s).artworks =
        (if pageNum = 1 then [] else s.artworks) ++ resp.data.filter hasImage) ∧
    (∀ evs, ∀ a ∈ (runFetches2 evs initialState2).artworks, hasImage a = true) ∧
    (∀ evs, ∀ a ∈ (runFetches3 evs initialState3).artworks, hasImage a = true) := by
  refine ⟨fun pageNum resp s => ?_, fun pageNum resp s => ?_,
    fun evs => allImages_runFetches2 evs initialState2 (by simp [initialState2]),
    fun evs => allImages_runFetches3 evs initialState3 (by simp [initialState3])⟩
  · by_cases h1 : pageNum = 1 <;> simp [fetchArtworks2, h1]
  · by_cases h1 : pageNum = 1 <;> simp [fetchArtworks3, h1]

/-- Concrete instance of `imageless_records_filtered`: after a page-1 fetch
returning one record with an image and one without, the surviving entry has
an image reference. -/
theorem imageless_records_filtered_witness : hasImage sampleArtwork = true :=
  imageless_records_filtered.2.2.1
    [(1, .success (mkResponse [sampleArtwork, noImageArtwork] 1 1))]
    sampleArtwork (by decide)

/-- Claim C2, counterexample: in variant 3 a failing first-page fetch does
not leave the result list unchanged — the `catch` of lines 673-677 clears
it to empty (and records no error message; variant 3 has no error state at
all, the failure is only logged). -/
theorem fetch_failure_cex :
    (fetchArtworks3 1 (.failure "network error")
      { initialState3 with artworks := [sampleArtwork], loading := false }).artworks
      ≠ [sampleArtwork] := by
  decide

/-- Claim C2 (amended): on a failing fetch, variant 1 records the error
message for display and leaves the result list unchanged; variant 2 leaves
the result list unchanged but records no error message (it has no error
state); variant 3 also records no error message, leaves the list unchanged
for a non-first page, and clears it to empty when the failing request was
for page 1. -/
theorem fetch_failure_behavior :
    (∀ (append : Bool) (msg : String) (s : GalleryState1),
      (fetchArtworks1 append (.failure msg) s).artworks = s.artworks ∧
      (fetchArtworks1 append (.failure msg) s).error = msg) ∧
    (∀ (pageNum : Nat) (msg : String) (s : GalleryState2),
      (fetchArtworks2 pageNum (.failure msg) s).artworks = s.artworks) ∧
    (∀ (pageNum : Nat) (msg : String) (s : GalleryState3), pageNum ≠ 1 →
      (fetchArtworks3 pageNum (.failure msg) s).artworks = s.artworks) ∧
    (∀ (msg : String) (s : GalleryState3),
      (fetchArtworks3 1 (.failure msg) s).artworks = []) := by
  refine ⟨fun _ _ _ => ⟨rfl, rfl⟩, fun _ _ _ => rfl,
    fun pageNum msg s h => ?_, fun _ _ => rfl⟩
  simp [fetchArtworks3, h]

/-- Concrete instance of `fetch_failure_behavior`: a failing page-2 fetch in
variant 3 preserves the result list. -/
theorem fetch_failure_behavior_witness :
    (fetchArtworks3 2 (.failure "network error")
      { initialState3 with artworks := [sampleArtwork] }).artworks = [sampleArtwork] :=
  fetch_failure_behavior.2.2.1 2 "network error"
    { initialState3 with artworks := [sampleArtwork] } (by decide)

/-- Claim C9: in every variant, a "load more" user action issues an
appending fetch at `page + 1` exactly under the gate "more pages remain and
no fetch in progress", and no load-more fetch is ever issued while a fetch
is in flight or when no more pages remain.  In variant 1 the gate is the
`handleLoadMore` guard `hasMore && !loading`; in variants 2 and 3 the
handler body is unguarded but the button is rendered only under `hasMore`
(with a non-empty list) and is disabled while `loading`, so no click can
reach the handler outside the gate. -/
theorem loadMore_gating :
    (∀ (s : GalleryState1) (r : FetchRequest1), loadMoreRequest1 s = some r →
      s.hasMore = true ∧ s.loading = false ∧ r.pageNum = s.page + 1 ∧
      r.append = true ∧ r.query = s.searchTerm) ∧
    (∀ s : GalleryState1, s.loading = true → loadMoreRequest1 s = none) ∧
    (∀ s : GalleryState1, s.hasMore = false → loadMoreRequest1 s = none) ∧
    (∀ (s : GalleryState2) (p : GalleryState2 × FetchRequest2),
      clickLoadMore2 s = some p →
      s.hasMore = true ∧ s.loading = false ∧ p.2.pageNum = s.page + 1) ∧
    (∀ s : GalleryState2, s.loading = true → clickLoadMore2 s = none) ∧
    (∀ s : GalleryState2, s.hasMore = false → clickLoadMore2 s = none) ∧
    (∀ (s : GalleryState3) (p : GalleryState3 × FetchRequest2),
      clickLoadMore3 s = some p →
      s.hasMore = true ∧ s.loading = false ∧ p.2.pageNum = s.page + 1) ∧
    (∀ s : GalleryState3, s.loading = true → clickLoadMore3 s = none) ∧
    (∀ s : GalleryState3, s.hasMore = false → clickLoadMore3 s = none) := by
  refine ⟨?_, ?_, ?_, ?_, ?_, ?_, ?_, ?_, ?_⟩
  · intro s r h
    simp only [loadMoreRequest1] at h
    split at h
    next hc =>
      obtain ⟨hm, hl⟩ : s.hasMore = true ∧ s.loading = false := by
        simpa [Bool.and_eq_true] using hc
      injection h with h
      subst h
      exact ⟨hm, hl, rfl, rfl, rfl⟩
    next => exact absurd h (by simp)
  · intro s h
    simp [loadMoreRequest1, h]
  · intro s h
    simp [loadMoreRequest1, h]
  · intro s p h
    simp only [clickLoadMore2] at h
    split at h
    next hc =>
      obtain ⟨⟨hne, hm⟩, hl⟩ :
          ((!s.artworks.isEmpty) = true ∧ s.hasMore = true) ∧ s.loading = false := by
        simpa [Bool.and_eq_true] using hc
      injection h with h
      subst h
      exact ⟨hm, hl, rfl⟩
    next => exact absurd h (by simp)
  · intro s h
    simp [clickLoadMore2, h]
  · intro s h
    simp [clickLoadMore2, h]
  · intro s p h
    simp only [clickLoadMore3] at h
    split at h
    next hc =>
      obtain ⟨⟨hne, hm⟩, hl⟩ :
          ((!s.artworks.isEmpty) = true ∧ s.hasMore = true) ∧ s.loading = false := by
        simpa [Bool.and_eq_true] using hc
      injection h with h
      subst h
      exact ⟨hm, hl, rfl⟩
    next => exact absurd h (by simp)
  · intro s h
    simp [clickLoadMore3, h]
  · intro s h
    simp [clickLoadMore3, h]

/-- Concrete instances of `loadMore_gating`: the request issued from the
ready variant-1 initial state targets page 2, and clicks while loading or
with no pages remaining issue nothing in any variant. -/
theorem loadMore_gating_witness :
    ((2 : Nat) = initialState1.page + 1) ∧
    loadMoreRequest1 { initialState1 with loading := true } = none ∧
    loadMoreRequest1 { initialState1 with hasMore := false } = none ∧
    ((2 : Nat) = initialState2.page + 1) ∧
    clickLoadMore2 initialState2 = none ∧
    clickLoadMore2 { initialState2 with hasMore := false } = none ∧
    ((2 : Nat) = initialState3.page + 1) ∧
    clickLoadMore3 initialState3 = none ∧
    clickLoadMore3 { initialState3 with hasMore := false } = none :=
  ⟨(loadMore_gating.1 initialState1
      { query := "", pageNum := 2, append := true } (by decide)).2.2.1,
   loadMore_gating.2.1 _ rfl,
   loadMore_gating.2.2.1 _ rfl,
   (loadMore_gating.2.2.2.1
      { initialState2 with loading := false, artworks := [sampleArtwork] }
      (loadMore2 { initialState2 with loading := false, artworks := [sampleArtwork] })
      (by decide)).2.2,
   loadMore_gating.2.2.2.2.1 _ rfl,
   loadMore_gating.2.2.2.2.2.1 _ rfl,
   (loadMore_gating.2.2.2.2.2.2.1
      { initialState3 with loading := false, artworks := [sampleArtwork] }
      (loadMore3 { initialState3 with loading := false, artworks := [sampleArtwork] })
      (by decide)).2.2,
   loadMore_gating.2.2.2.2.2.2.2.1 _ rfl,
   loadMore_gating.2.2.2.2.2.2.2.2 _ rfl⟩

/-- Claim C10: in variants 1 and 2, a "load more" click advances the page
cursor to `page + 1` before its request resolves; when that request fails
the cursor is not rolled back and the result list is unchanged, so the next
"load more" requests `page + 2` — the page whose fetch failed is skipped. -/
theorem loadMore_failure_skips_page :
    (∀ (s : GalleryState1) (msg : String), s.hasMore = true → s.loading = false →
      (clickLoadMore1 s).2 =
        some { query := s.searchTerm, pageNum := s.page + 1, append := true } ∧
      (clickLoadMore1 s).1.page = s.page + 1 ∧
      (fetchResolve1 true (.failure msg) (clickLoadMore1 s).1).page = s.page + 1 ∧
      (fetchResolve1 true (.failure msg) (clickLoadMore1 s).1).artworks = s.artworks ∧
      (clickLoadMore1 (fetchResolve1 true (.failure msg) (clickLoadMore1 s).1)).2 =
        some { query := s.searchTerm, pageNum := s.page + 2, append := true }) ∧
    (∀ (s : GalleryState2) (msg : String),
      (loadMore2 s).2.pageNum = s.page + 1 ∧
      (loadMore2 s).1.page = s.page + 1 ∧
      (fetchArtworks2 (s.page + 1) (.failure msg) (loadMore2 s).1).page = s.page + 1 ∧
      (fetchArtworks2 (s.page + 1) (.failure msg) (loadMore2 s).1).artworks
        = s.artworks ∧
      (loadMore2 (fetchArtworks2 (s.page + 1) (.failure msg) (loadMore2 s).1)).2.pageNum
        = s.page + 2) := by
  constructor
  · intro s msg hm hl
    simp [clickLoadMore1, loadMoreRequest1, hm, hl, fetchStart1, fetchResolve1]
  · intro s msg
    exact ⟨rfl, rfl, rfl, rfl, rfl⟩

/-- Concrete instance of `loadMore_failure_skips_page`: from the variant-1
initial state (page 1), a load-more whose fetch fails leaves the cursor at
2, and the next load-more requests page 3 — page 2 is skipped. -/
theorem loadMore_failure_skips_page_witness :
    (clickLoadMore1
      (fetchResolve1 true (.failure "network error") (clickLoadMore1 initialState1).1)).2
      = some { query := "", pageNum := 3, append := true } :=
  (loadMore_failure_skips_page.1 initialState1 "network error" rfl rfl).2.2.2.2

/-! ## Favorites persistence: JSON serialization

`FavoritesProvider` persists the collection with
`localStorage.setItem('artGalleryFavorites', JSON.stringify(favorites))`
(FavoritesContext.tsx line 103) and reloads it with
`JSON.parse(savedFavorites)` inside `try`/`catch` (lines 85-95), falling
back to the empty collection on a parse error.

The encoder below reproduces `JSON.stringify` on an array of `Artwork`
records: array and object syntax without whitespace, members in the
record's field order, absent optional fields omitted, strings escaped as
`JSON.stringify` escapes them (quote, backslash, the named control escapes,
`\u00XX` for other control characters), numbers in decimal.  The decoder is
a character-level parser for that textual encoding; it embeds the behavior
of `JSON.parse` on the sublanguage the encoder emits, which is the only
input the load effect ever sees when no malformed data is injected. -/

/-- A JSON value as stored in an Artwork member: a string or a natural
number (the only value shapes the record serializes to). -/
inductive JVal where
  | str (s : String)
  | num (n : Nat)
deriving DecidableEq, Repr

/-- Lowercase hexadecimal digit, as `JSON.stringify` emits in `\u00XX`. -/
def hexDigitChar : Nat → Char
  | 0 => '0' | 1 => '1' | 2 => '2' | 3 => '3' | 4 => '4' | 5 => '5'
  | 6 => '6' | 7 => '7' | 8 => '8' | 9 => '9' | 10 => 'a' | 11 => 'b'
  | 12 => 'c' | 13 => 'd' | 14 => 'e' | _ => 'f'

/-- Escape one character of a JSON string the way `JSON.stringify` does:
quote and backslash get a backslash escape, the named control characters
use `\n`, `\r`, `\t`, `\b`, `\f`, other control characters use `\u00XX`,
everything else is emitted literally. -/
def escapeChar (c : Char) : List Char :=
  if c = '\"' then ['\\', '\"']
  else if c = '\\' then ['\\', '\\']
  else if c = '\n' then ['\\', 'n']
  else if c = '\r' then ['\\', 'r']
  else if c = '\t' then ['\\', 't']
  else if c.toNat = 8 then ['\\', 'b']
  else if c.toNat = 12 then ['\\', 'f']
  else if c.toNat < 32 then
    ['\\', 'u', '0', '0', hexDigitChar (c.toNat / 16), hexDigitChar (c.toNat % 16)]
  else [c]

/-- Escape a whole character sequence. -/
def escapeList : List Char → List Char
  | [] => []
  | c :: cs => escapeChar c ++ escapeList cs

/-- Serialize a string: quotes around the escaped contents. -/
def encodeStringChars (s : String) : List Char :=
  '\"' :: (escapeList s.data ++ ['\"'])

/-- Decimal digit character. -/
def digitChar : Nat → Char
  | 0 => '0' | 1 => '1' | 2 => '2' | 3 => '3' | 4 => '4'
  | 5 => '5' | 6 => '6' | 7 => '7' | 8 => '8' | _ => '9'

/-- Decimal rendering of a natural number, as `JSON.stringify` renders an
integral number. -/
def natChars (n : Nat) : List Char :=
  if n = 0 then ['0'] else ((Nat.digits 10 n).map digitChar).reverse

/-- Serialize one JSON value. -/
def encodeJVal : JVal → List Char
  | .str s => encodeStringChars s
  | .num n => natChars n

/-- Serialize one object member `"key":value`. -/
def encodeMember (m : String × JVal) : List Char :=
  encodeStringChars m.1 ++ (':' :: encodeJVal m.2)

/-- Join serialized pieces with commas. -/
def intercalateComma : List (List Char) → List Char
  | [] => []
  | [x] => x
  | x :: xs => x ++ (',' :: intercalateComma xs)

/-- The member contributed by an optional string field: omitted when the
field is absent (`JSON.stringify` skips `undefined` properties). -/
def optMember (k : String) : Option String → List (String × JVal)
  | none => []
  | some s => [(k, .str s)]

/-- The members of the serialized Artwork object, in field order; `id` is
always present. -/
def membersOf (a : Artwork) : List (String × JVal) :=
  ("id", .num a.id) ::
    (optMember "title" a.title ++ optMember "image_id" a.image_id ++
     optMember "artist_display" a.artist_display ++
     optMember "date_display" a.date_display ++
     optMember "medium_display" a.medium_display ++
     optMember "dimensions" a.dimensions)

/-- `JSON.stringify` of one Artwork record. -/
def encodeArtwork (a : Artwork) : List Char :=
  '\x7b' :: (intercalateComma ((membersOf a).map encodeMember) ++ ['\x7d'])

/-- `JSON.stringify(favorites)`: the persisted textual encoding of the
whole collection. -/
def stringifyFavorites (l : List Artwork) : List Char :=
  '[' :: (intercalateComma (l.map encodeArtwork) ++ [']'])

/-- Value of a hexadecimal digit character. -/
def hexVal (c : Char) : Option Nat :=
  if 48 ≤ c.toNat ∧ c.toNat ≤ 57 then some (c.toNat - 48)
  else if 97 ≤ c.toNat ∧ c.toNat ≤ 102 then some (c.toNat - 87)
  else none

/-- Prepend a decoded character to a string-parse result. -/
def consFst (ch : Char) : Option (List Char × List Char) → Option (List Char × List Char)
  | none => none
  | some (s, r) => some (ch :: s, r)

/-- Parse the body of a JSON string after its opening quote, undoing the
escapes of `escapeChar`; returns the decoded characters and the remaining
input after the closing quote. -/
def parseStringBody : List Char → Option (List Char × List Char)
  | [] => none
  | c :: cs =>
    if c = '\"' then some ([], cs)
    else if c = '\\' then
      match cs with
      | [] => none
      | e :: cs' =>
        if e = '\"' then consFst '\"' (parseStringBody cs')
        else if e = '\\' then consFst '\\' (parseStringBody cs')
        else if e = 'n' then consFst '\n' (parseStringBody cs')
        else if e = 'r' then consFst '\r' (parseStringBody cs')
        else if e = 't' then consFst '\t' (parseStringBody cs')
        else if e = 'b' then consFst (Char.ofNat 8) (parseStringBody cs')
        else if e = 'f' then consFst (Char.ofNat 12) (parseStringBody cs')
        else if e = 'u' then
          match cs' with
          | d1 :: d2 :: d3 :: d4 :: cs'' =>
            match hexVal d1, hexVal d2, hexVal d3, hexVal d4 with
            | some h1, some h2, some h3, some h4 =>
                consFst (Char.ofNat (((h1 * 16 + h2) * 16 + h3) * 16 + h4))
                  (parseStringBody cs'')
            | _, _, _, _ => none
          | _ => none
        else none
    else consFst c (parseStringBody cs)

/-- Decimal digit test. -/
def isDigitChar (c : Char) : Bool :=
  decide (48 ≤ c.toNat) && decide (c.toNat ≤ 57)

/-- Consume leading decimal digits, accumulating their value. -/
def parseNatAux : List Char → Nat → Nat × List Char
  | [], acc => (acc, [])
  | c :: cs, acc =>
    if isDigitChar c then parseNatAux cs (acc * 10 + (c.toNat - 48))
    else (acc, c :: cs)

/-- Parse a (nonempty) decimal number. -/
def parseNat : List Char → Option (Nat × List Char)
  | [] => none
  | c :: cs =>
    if isDigitChar c then some (parseNatAux cs (c.toNat - 48)) else none

/-- Parse one JSON value of the shapes the encoder emits. -/
def parseJVal (l : List Char) : Option (JVal × List Char) :=
  match l with
  | [] => none
  | c :: cs =>
    if c = '\"' then (parseStringBody cs).map (fun p => (.str ⟨p.1⟩, p.2))
    else (parseNat (c :: cs)).map (fun p => (.num p.1, p.2))

/-- Parse one object member `"key":value`. -/
def parseMember (l : List Char) : Option ((String × JVal) × List Char) :=
  match l with
  | '\"' :: cs =>
    match parseStringBody cs with
    | some (k, ':' :: r) => (parseJVal r).map (fun p => ((⟨k⟩, p.1), p.2))
    | _ => none
  | _ => none

/-- Parse a nonempty comma-separated member sequence up to the closing
brace (fueled; one unit of fuel per member). -/
def parseMembersAux : Nat → List Char → Option (List (String × JVal) × List Char)
  | 0, _ => none
  | fuel + 1, l =>
    match parseMember l with
    | some (m, ',' :: r) => (parseMembersAux fuel r).map (fun p => (m :: p.1, p.2))
    | some (m, '\x7d' :: r) => some ([m], r)
    | _ => none

/-- Parse one JSON object into its member list. -/
def parseObject (l : List Char) : Option (List (String × JVal) × List Char) :=
  match l with
  | '\x7b' :: '\x7d' :: r => some ([], r)
  | '\x7b' :: r => parseMembersAux r.length r
  | _ => none

/-- Look a key up in a member list (first match). -/
def lookupMember (k : String) : List (String × JVal) → Option JVal
  | [] => none
  | (k', v) :: ms => if k' = k then some v else lookupMember k ms

/-- Read an optional string field from a member list: an absent key is the
absent field, a string value is the present field, a number is malformed. -/
def getOptStr (k : String) (ms : List (String × JVal)) : Option (Option String) :=
  match lookupMember k ms with
  | none => some none
  | some (.str s) => some (some s)
  | some (.num _) => none

/-- Rebuild an Artwork record from parsed object members. -/
def fromMembers (ms : List (String × JVal)) : Option Artwork :=
  match lookupMember "id" ms, getOptStr "title" ms, getOptStr "image_id" ms,
    getOptStr "artist_display" ms, getOptStr "date_display" ms,
    getOptStr "medium_display" ms, getOptStr "dimensions" ms with
  | some (.num n), some t, some im, some ar, some da, some me, some di =>
      some ⟨n, t, im, ar, da, me, di⟩
  | _, _, _, _, _, _, _ => none

/-- Parse a nonempty comma-separated element sequence up to the closing
bracket (fueled; one unit of fuel per element). -/
def parseElements : Nat → List Char → Option (List Artwork × List Char)
  | 0, _ => none
  | fuel + 1, l =>
    match parseObject l with
    | some (ms, r) =>
      match fromMembers ms with
      | some a =>
        match r with
        | ',' :: r2 => (parseElements fuel r2).map (fun p => (a :: p.1, p.2))
        | ']' :: r2 => some ([a], r2)
        | _ => none
      | none => none
    | none => none

/-- `JSON.parse` of the persisted favorites encoding: the whole input must
be one array of Artwork objects. -/
def parseFavorites (input : List Char) : Option (List Artwork) :=
  match input with
  | '[' :: ']' :: r => if r.isEmpty then some [] else none
  | '[' :: r =>
    match parseElements r.length r with
    | some (xs, rest) => if rest.isEmpty then some xs else none
    | none => none
  | _ => none

/-! ### The persistence state machine -/

/-- Provider state together with the persisted device storage entry
(`localStorage['artGalleryFavorites']`; `none` when absent). -/
structure FavStoreState where
  favorites : List Artwork
  storage : Option (List Char)
deriving DecidableEq, Repr

/-- One mutation followed by the save effect: the effect of lines 102-104
re-serializes the whole collection and overwrites the stored value after
every change to `favorites`. -/
def favStep (op : FavOp) (s : FavStoreState) : FavStoreState :=
  let favs := applyFavOp op s.favorites
  { favorites := favs, storage := some (stringifyFavorites favs) }

/-- Run a sequence of mutations, persisting after each. -/
def runFavStore (ops : List FavOp) (s : FavStoreState) : FavStoreState :=
  ops.foldl (fun s op => favStep op s) s

/-- The load effect (lines 84-96): an absent entry leaves the collection
empty, a stored string is parsed, and a parse failure is caught and yields
the empty collection. -/
def loadFavorites (storage : Option (List Char)) : List Artwork :=
  match storage with
  | none => []
  | some str => (parseFavorites str).getD []

/-! ### Round-trip lemmas: strings and numbers -/

/-- The input does not begin with a decimal digit (so a number parse in
front of it stops exactly there). -/
def notDigitStart : List Char → Bool
  | [] => true
  | c :: _ => !(isDigitChar c)

lemma hexVal_hexDigitChar (n : Nat) (h : n < 16) : hexVal (hexDigitChar n) = some n := by
  interval_cases n <;> decide

lemma parseStringBody_escapeChar (c : Char) (tail : List Char) :
    parseStringBody (escapeChar c ++ tail) = consFst c (parseStringBody tail) := by
  by_cases h1 : c = '\"'
  · subst h1
    rw [show escapeChar '\"' ++ tail = '\\' :: '\"' :: tail from rfl,
      parseStringBody.eq_def]
    simp
  by_cases h2 : c = '\\'
  · subst h2
    rw [show escapeChar '\\' ++ tail = '\\' :: '\\' :: tail from rfl,
      parseStringBody.eq_def]
    simp
  by_cases h3 : c = '\n'
  · subst h3
    rw [show escapeChar '\n' ++ tail = '\\' :: 'n' :: tail from rfl,
      parseStringBody.eq_def]
    simp
  by_cases h4 : c = '\r'
  · subst h4
    rw [show escapeChar '\r' ++ tail = '\\' :: 'r' :: tail from rfl,
      parseStringBody.eq_def]
    simp
  by_cases h5 : c = '\t'
  · subst h5
    rw [show escapeChar '\t' ++ tail = '\\' :: 't' :: tail from rfl,
      parseStringBody.eq_def]
    simp
  by_cases h6 : c.toNat = 8
  · have hc : Char.ofNat 8 = c := by rw [← h6, Char.ofNat_toNat]
    simp [escapeChar, h1, h2, h3, h4, h5, h6]
    rw [parseStringBody.eq_def]
    simp
    rw [hc]
  by_cases h7 : c.toNat = 12
  · have hc : Char.ofNat 12 = c := by rw [← h7, Char.ofNat_toNat]
    simp [escapeChar, h1, h2, h3, h4, h5, h6, h7]
    rw [parseStringBody.eq_def]
    simp
    rw [hc]
  by_cases h8 : c.toNat < 32
  · have hdiv : c.toNat / 16 < 16 := by omega
    have hmod : c.toNat % 16 < 16 := by omega
    simp [escapeChar, h1, h2, h3, h4, h5, h6, h7, h8]
    rw [parseStringBody.eq_def]
    simp
    rw [(by decide : hexVal '0' = some 0), hexVal_hexDigitChar _ hdiv,
      hexVal_hexDigitChar _ hmod]
    simp
    congr 1
    rw [show c.toNat / 16 * 16 + c.toNat % 16 = c.toNat by omega, Char.ofNat_toNat]
  · simp [escapeChar, h1, h2, h3, h4, h5, h6, h7, h8]
    rw [parseStringBody.eq_def]
    simp [h1, h2]

lemma parseStringBody_escapeList (s : List Char) (rest : List Char) :
    parseStringBody (escapeList s ++ ('\"' :: rest)) = some (s, rest) := by
  induction s with
  | nil =>
      rw [show escapeList [] ++ ('\"' :: rest) = '\"' :: rest from rfl,
        parseStringBody.eq_def]
      simp
  | cons c s ih =>
      rw [show escapeList (c :: s) = escapeChar c ++ escapeList s from rfl,
        List.append_assoc, parseStringBody_escapeChar, ih]
      rfl

lemma digitChar_isDigit (d : Nat) : isDigitChar (digitChar d) = true := by
  rcases d with _|_|_|_|_|_|_|_|_|d <;> rfl

lemma parseNatAux_digits (ds rest : List Char) (acc : Nat)
    (hds : ∀ c ∈ ds, isDigitChar c = true) (hrest : notDigitStart rest = true) :
    parseNatAux (ds ++ rest) acc =
      (ds.foldl (fun a c => a * 10 + (c.toNat - 48)) acc, rest) := by
  induction ds generalizing acc with
  | nil =>
      cases rest with
      | nil => rfl
      | cons c r =>
          have hc : isDigitChar c = false := by
            simpa [notDigitStart] using hrest
          simp [parseNatAux, hc]
  | cons c ds ih =>
      have hc : isDigitChar c = true := hds c (by simp)
      simp only [List.cons_append, parseNatAux, hc, if_true, List.foldl_cons]
      exact ih _ (fun x hx => hds x (List.mem_cons_of_mem c hx))

lemma foldl_decimal (l : List Nat) (a : Nat) :
    l.reverse.foldl (fun x d => x * 10 + d) a = a * 10 ^ l.length + Nat.ofDigits 10 l := by
  induction l generalizing a with
  | nil => simp [Nat.ofDigits]
  | cons d t ih =>
      simp only [List.reverse_cons, List.foldl_append, List.foldl_cons, List.foldl_nil,
        ih, Nat.ofDigits_cons, List.length_cons]
      ring

lemma natChars_foldl (n : Nat) :
    (natChars n).foldl (fun a c => a * 10 + (c.toNat - 48)) 0 = n := by
  by_cases h : n = 0
  · subst h; rfl
  · unfold natChars
    rw [if_neg h, ← List.map_reverse, List.foldl_map]
    have hsteps :
        (Nat.digits 10 n).reverse.foldl (fun a d => a * 10 + ((digitChar d).toNat - 48)) 0
          = (Nat.digits 10 n).reverse.foldl (fun a d => a * 10 + d) 0 := by
      apply List.foldl_ext
      intro a d hd
      have hlt : d < 10 := Nat.digits_lt_base (by norm_num) (List.mem_reverse.mp hd)
      have : (digitChar d).toNat - 48 = d := by interval_cases d <;> rfl
      rw [this]
    rw [hsteps, foldl_decimal, Nat.ofDigits_digits]
    simp

lemma natChars_ne_nil (n : Nat) : natChars n ≠ [] := by
  unfold natChars
  by_cases h : n = 0
  · simp [h]
  · simp only [h, if_false, ite_false]
    intro hcon
    have : Nat.digits 10 n = [] := by
      have := congrArg List.length hcon
      simpa using this
    exact h ((Nat.digits_eq_nil_iff_eq_zero).mp this)

lemma natChars_all_digits (n : Nat) : ∀ c ∈ natChars n, isDigitChar c = true := by
  unfold natChars
  by_cases h : n = 0
  · simp only [h, if_true, ite_true]
    intro c hc
    simp at hc
    subst hc
    rfl
  · simp only [h, if_false, ite_false]
    intro c hc
    rw [List.mem_reverse] at hc
    obtain ⟨d, _, rfl⟩ := List.mem_map.mp hc
    exact digitChar_isDigit d

lemma parseNat_natChars (n : Nat) (rest : List Char) (h : notDigitStart rest = true) :
    parseNat (natChars n ++ rest) = some (n, rest) := by
  obtain ⟨c, cs, hcons⟩ := List.exists_cons_of_ne_nil (natChars_ne_nil n)
  have hall := natChars_all_digits n
  rw [hcons] at hall ⊢
  have hc : isDigitChar c = true := hall c (List.mem_cons_self c cs)
  rw [List.cons_append, parseNat.eq_def]
  simp only [hc, if_true, ite_true]
  rw [parseNatAux_digits cs rest _ (fun x hx => hall x (List.mem_cons_of_mem c hx)) h]
  have : cs.foldl (fun a c => a * 10 + (c.toNat - 48)) (c.toNat - 48)
      = (c :: cs).foldl (fun a c => a * 10 + (c.toNat - 48)) 0 := by
    simp [List.foldl_cons]
  rw [this, ← hcons, natChars_foldl]

lemma isDigitChar_ne_quote (c : Char) (h : isDigitChar c = true) : ¬ c = '\"' := by
  intro he
  subst he
  exact absurd h (by decide)

lemma parseJVal_encode (v : JVal) (rest : List Char) (h : notDigitStart rest = true) :
    parseJVal (encodeJVal v ++ rest) = some (v, rest) := by
  cases v with
  | str s =>
      rw [show encodeJVal (.str s) ++ rest
          = '\"' :: (escapeList s.data ++ ('\"' :: rest)) by
        simp [encodeJVal, encodeStringChars]]
      show Option.map (fun p => (JVal.str ⟨p.1⟩, p.2))
        (parseStringBody (escapeList s.data ++ ('\"' :: rest))) = some (.str s, rest)
      rw [parseStringBody_escapeList s.data rest]
      rfl
  | num n =>
      obtain ⟨c, cs, hcons⟩ := List.exists_cons_of_ne_nil (natChars_ne_nil n)
      have hc : isDigitChar c = true :=
        natChars_all_digits n c (hcons ▸ List.mem_cons_self c cs)
      rw [show encodeJVal (.num n) ++ rest = natChars n ++ rest from rfl, hcons,
        List.cons_append]
      simp only [parseJVal, isDigitChar_ne_quote c hc, if_false, ite_false]
      rw [← List.cons_append, ← hcons, parseNat_natChars n rest h]
      rfl

lemma parseMember_encode (m : String × JVal) (rest : List Char)
    (h : notDigitStart rest = true) :
    parseMember (encodeMember m ++ rest) = some (m, rest) := by
  obtain ⟨k, v⟩ := m
  rw [show encodeMember (k, v) ++ rest
      = '\"' :: (escapeList k.data ++ ('\"' :: (':' :: (encodeJVal v ++ rest)))) by
    simp [encodeMember, encodeStringChars]]
  simp only [parseMember]
  rw [parseStringBody_escapeList]
  show Option.map (fun p => ((String.mk k.data, p.1), p.2))
    (parseJVal (encodeJVal v ++ rest)) = some ((k, v), rest)
  rw [parseJVal_encode v rest h]
  rfl

lemma parseMembersAux_encode (ms : List (String × JVal)) (fuel : Nat)
    (rest : List Char) (hne : ms ≠ []) (hfuel : ms.length ≤ fuel) :
    parseMembersAux fuel (intercalateComma (ms.map encodeMember) ++ ('\x7d' :: rest))
      = some (ms, rest) := by
  revert hne hfuel
  induction ms generalizing fuel with
  | nil => intro hne _; exact absurd rfl hne
  | cons m ms ih =>
      intro _ hfuel
      obtain ⟨f, rfl⟩ : ∃ f, fuel = f + 1 := ⟨fuel - 1, by simp at hfuel; omega⟩
      cases ms with
      | nil =>
          rw [show intercalateComma ([m].map encodeMember) = encodeMember m from rfl]
          simp only [parseMembersAux]
          rw [parseMember_encode m _ (by rfl)]
          rfl
      | cons m2 ms2 =>
          rw [show intercalateComma ((m :: m2 :: ms2).map encodeMember)
                ++ ('\x7d' :: rest)
              = encodeMember m
                ++ (',' :: (intercalateComma ((m2 :: ms2).map encodeMember)
                  ++ ('\x7d' :: rest))) by
            simp [intercalateComma, List.append_assoc]]
          simp only [parseMembersAux]
          rw [parseMember_encode m _ (by rfl)]
          show Option.map (fun p => (m :: p.1, p.2))
            (parseMembersAux f
              (intercalateComma ((m2 :: ms2).map encodeMember) ++ ('\x7d' :: rest)))
            = some (m :: m2 :: ms2, rest)
          rw [ih f (by simp) (by simp at hfuel ⊢; omega)]
          rfl

lemma intercalateComma_cons (x : List Char) (xs : List (List Char)) :
    ∃ u, intercalateComma (x :: xs) = x ++ u := by
  cases xs with
  | nil => exact ⟨[], by simp [intercalateComma]⟩
  | cons y ys => exact ⟨_, rfl⟩

lemma intercalateComma_length_ge {α : Type} (f : α → List Char)
    (hf : ∀ x, f x ≠ []) (ms : List α) :
    ms.length ≤ (intercalateComma (ms.map f)).length := by
  induction ms with
  | nil => simp [intercalateComma]
  | cons m ms ih =>
      cases ms with
      | nil =>
          have := List.length_pos.mpr (hf m)
          simpa [intercalateComma] using this
      | cons m2 ms2 =>
          have h1 := List.length_pos.mpr (hf m)
          show (m :: m2 :: ms2).length ≤
            (f m ++ (',' :: intercalateComma ((m2 :: ms2).map f))).length
          simp only [List.length_append, List.length_cons] at ih ⊢
          omega

lemma encodeMember_cons (m : String × JVal) :
    ∃ t, encodeMember m = '\"' :: t :=
  ⟨(escapeList m.1.data ++ ['\"']) ++ (':' :: encodeJVal m.2), rfl⟩

lemma encodeMember_ne_nil (m : String × JVal) : encodeMember m ≠ [] := by
  obtain ⟨t, ht⟩ := encodeMember_cons m
  simp [ht]

lemma membersOf_ne_nil (a : Artwork) : membersOf a ≠ [] := by
  simp [membersOf]

lemma parseObject_encode (a : Artwork) (rest : List Char) :
    parseObject (encodeArtwork a ++ rest) = some (membersOf a, rest) := by
  have hseq : ∃ w, intercalateComma ((membersOf a).map encodeMember) = '\"' :: w := by
    obtain ⟨u, hu⟩ := intercalateComma_cons (encodeMember ("id", JVal.num a.id))
      ((optMember "title" a.title ++ optMember "image_id" a.image_id ++
        optMember "artist_display" a.artist_display ++
        optMember "date_display" a.date_display ++
        optMember "medium_display" a.medium_display ++
        optMember "dimensions" a.dimensions).map encodeMember)
    obtain ⟨t, ht⟩ := encodeMember_cons ("id", JVal.num a.id)
    refine ⟨t ++ u, ?_⟩
    rw [show (membersOf a).map encodeMember
        = encodeMember ("id", JVal.num a.id) ::
          ((optMember "title" a.title ++ optMember "image_id" a.image_id ++
            optMember "artist_display" a.artist_display ++
            optMember "date_display" a.date_display ++
            optMember "medium_display" a.medium_display ++
            optMember "dimensions" a.dimensions).map encodeMember) from rfl, hu, ht]
    simp
  obtain ⟨w, hw⟩ := hseq
  rw [show encodeArtwork a ++ rest
      = '\x7b' :: (intercalateComma ((membersOf a).map encodeMember)
        ++ ('\x7d' :: rest)) by simp [encodeArtwork], hw, List.cons_append]
  show parseMembersAux ('\"' :: (w ++ ('\x7d' :: rest))).length
    ('\"' :: (w ++ ('\x7d' :: rest))) = some (membersOf a, rest)
  rw [← List.cons_append, ← hw]
  refine parseMembersAux_encode (membersOf a) _ rest (membersOf_ne_nil a) ?_
  have hlen := intercalateComma_length_ge encodeMember encodeMember_ne_nil (membersOf a)
  simp only [List.length_append, List.length_cons]
  omega

lemma fromMembers_membersOf (a : Artwork) : fromMembers (membersOf a) = some a := by
  obtain ⟨n, t, im, ar, da, me, di⟩ := a
  cases t <;> cases im <;> cases ar <;> cases da <;> cases me <;> cases di <;>
    simp [fromMembers, membersOf, optMember, lookupMember, getOptStr]

lemma encodeArtwork_cons (a : Artwork) :
    ∃ t, encodeArtwork a = '\x7b' :: t :=
  ⟨_, rfl⟩

lemma encodeArtwork_ne_nil (a : Artwork) : encodeArtwork a ≠ [] := by
  simp [encodeArtwork]

lemma parseElements_encode (l : List Artwork) (fuel : Nat) (rest : List Char)
    (hne : l ≠ []) (hfuel : l.length ≤ fuel) :
    parseElements fuel (intercalateComma (l.map encodeArtwork) ++ (']' :: rest))
      = some (l, rest) := by
  revert hne hfuel
  induction l generalizing fuel with
  | nil => intro hne _; exact absurd rfl hne
  | cons a l ih =>
      intro _ hfuel
      obtain ⟨f, rfl⟩ : ∃ f, fuel = f + 1 := ⟨fuel - 1, by simp at hfuel; omega⟩
      cases l with
      | nil =>
          rw [show intercalateComma ([a].map encodeArtwork) = encodeArtwork a from rfl]
          simp only [parseElements]
          rw [parseObject_encode a (']' :: rest)]
          show (match fromMembers (membersOf a) with
            | some b =>
              match (']' :: rest : List Char) with
              | ',' :: r2 => Option.map (fun p => (b :: p.1, p.2)) (parseElements f r2)
              | ']' :: r2 => some ([b], r2)
              | _ => none
            | none => none) = some ([a], rest)
          rw [fromMembers_membersOf a]
          rfl
      | cons a2 l2 =>
          rw [show intercalateComma ((a :: a2 :: l2).map encodeArtwork)
                ++ (']' :: rest)
              = encodeArtwork a
                ++ (',' :: (intercalateComma ((a2 :: l2).map encodeArtwork)
                  ++ (']' :: rest))) by
            simp [intercalateComma, List.append_assoc]]
          simp only [parseElements]
          rw [parseObject_encode a]
          show (match fromMembers (membersOf a) with
            | some b =>
              match (',' :: (intercalateComma ((a2 :: l2).map encodeArtwork)
                  ++ (']' :: rest)) : List Char) with
              | ',' :: r2 => Option.map (fun p => (b :: p.1, p.2)) (parseElements f r2)
              | ']' :: r2 => some ([b], r2)
              | _ => none
            | none => none) = some (a :: a2 :: l2, rest)
          rw [fromMembers_membersOf a]
          show Option.map (fun p => (a :: p.1, p.2))
            (parseElements f
              (intercalateComma ((a2 :: l2).map encodeArtwork) ++ (']' :: rest)))
            = some (a :: a2 :: l2, rest)
          rw [ih f (by simp) (by simp at hfuel ⊢; omega)]
          rfl

/-- The serialize-then-deserialize round trip: `JSON.parse` of
`JSON.stringify(favorites)` recovers exactly the collection. -/
theorem parseFavorites_stringify (l : List Artwork) :
    parseFavorites (stringifyFavorites l) = some l := by
  cases l with
  | nil => rfl
  | cons a l2 =>
      obtain ⟨t, ht⟩ := encodeArtwork_cons a
      obtain ⟨u, hu⟩ := intercalateComma_cons (encodeArtwork a) (l2.map encodeArtwork)
      have hstr : stringifyFavorites (a :: l2)
          = '[' :: '\x7b' :: ((t ++ u) ++ (']' :: [])) := by
        rw [show stringifyFavorites (a :: l2)
            = '[' :: (intercalateComma ((a :: l2).map encodeArtwork) ++ (']' :: []))
            from rfl, List.map_cons, hu, ht]
        simp
      rw [hstr]
      show (match parseElements ('\x7b' :: ((t ++ u) ++ (']' :: []))).length
          ('\x7b' :: ((t ++ u) ++ (']' :: []))) with
        | some (xs, rest) => if rest.isEmpty then some xs else none
        | none => none) = some (a :: l2)
      have harg : '\x7b' :: ((t ++ u) ++ (']' :: []))
          = intercalateComma ((a :: l2).map encodeArtwork) ++ (']' :: []) := by
        rw [List.map_cons, hu, ht]
        simp
      rw [harg]
      have hlen := intercalateComma_length_ge encodeArtwork encodeArtwork_ne_nil (a :: l2)
      rw [parseElements_encode (a :: l2) _ [] (by simp) ?_]
      · rfl
      · simp only [List.length_append, List.length_cons] at hlen ⊢
        omega

/-- Claim C4: for every sequence of `addToFavorites`/`removeFromFavorites`
calls starting from a state whose persisted entry deserializes to the
in-memory collection (the empty state, a freshly loaded state, or any state
without externally injected malformed data), deserializing the persisted
favorites entry after the run yields exactly the in-memory collection at
the time of the last mutation: the save effect rewrites the entry with
`JSON.stringify(favorites)` after every mutation, and `JSON.parse` of that
string recovers the collection. -/
theorem favorites_persistence_roundtrip (ops : List FavOp) (s : FavStoreState)
    (h : loadFavorites s.storage = s.favorites) :
    loadFavorites (runFavStore ops s).storage = (runFavStore ops s).favorites := by
  induction ops generalizing s with
  | nil => simpa [runFavStore] using h
  | cons op ops ih =>
      have hstep : loadFavorites (favStep op s).storage = (favStep op s).favorites := by
        show loadFavorites (some (stringifyFavorites (applyFavOp op s.favorites)))
          = applyFavOp op s.favorites
        show (parseFavorites (stringifyFavorites (applyFavOp op s.favorites))).getD []
          = applyFavOp op s.favorites
        rw [parseFavorites_stringify]
        rfl
      simpa [runFavStore, List.foldl_cons] using ih (favStep op s) hstep

/-- Concrete instance of `favorites_persistence_roundtrip`: adding
`sampleArtwork` and then a second artwork from the fresh state (no stored
entry) leaves storage that deserializes to the in-memory collection. -/
theorem favorites_persistence_roundtrip_witness :
    loadFavorites (runFavStore [FavOp.add sampleArtwork, FavOp.add noImageArtwork]
      { favorites := [], storage := none }).storage
      = (runFavStore [FavOp.add sampleArtwork, FavOp.add noImageArtwork]
      { favorites := [], storage := none }).favorites :=
  favorites_persistence_roundtrip [FavOp.add sampleArtwork, FavOp.add noImageArtwork]
    { favorites := [], storage := none } rfl

end ArtGallery
